import Mathlib

/-!
Verification development for the `doctor` document-conversion microservice.

The repository contains two service variants with the same extraction core:
the Django service (`doctor/views.py`) and the legacy Flask service
(`src/api.py`, `src/server.py`).  External tools (pdftotext, tesseract OCR,
libmagic sniffing, the `mimetypes` table, format converters) are modelled as
parameters: each orchestrator is a pure Lean function of the results those
tools would return, mirroring the Python control flow line by line.
-/

namespace Doctor

set_option maxRecDepth 4096

/-- Embedding of Python `s.startswith(pre)`, via the character lists. -/
def pyStartsWith (s pre : String) : Bool :=
  pre.toList.isPrefixOf s.toList

/-- Embedding of Python `s.lower()` for the ASCII strings used here. -/
def pyLower (s : String) : String :=
  String.mk (s.toList.map Char.toLower)

/-- Python whitespace characters recognised by `str.strip()` (ASCII range). -/
def isPySpace (c : Char) : Bool :=
  c == ' ' || c == '\t' || c == '\n' || c == '\r' || c == '\x0b' || c == '\x0c'

/-- Embedding of Python `s.strip()`: drop leading and trailing whitespace. -/
def pyStrip (s : String) : String :=
  String.mk (((s.toList.dropWhile isPySpace).reverse.dropWhile isPySpace).reverse)

/-- The `(content, err, returncode)` triple returned by every external
extraction tool (`make_pdftotext_process`, `extract_from_doc`, ...). -/
structure ToolResult where
  content : String
  err : String
  returncode : Int
deriving DecidableEq, Repr

/-- JSON values appearing in the services' responses. -/
inductive JVal where
  | s (v : String)
  | b (v : Bool)
  | i (v : Int)
  | null
deriving DecidableEq, Repr

/-- Whether a JSON value is an integer. -/
def JVal.isInt : JVal → Bool
  | .i _ => true
  | _ => false

/-- A JSON object, as the ordered key/value list the services serialize. -/
abbrev JObj := List (String × JVal)

/-- Does any field of the object hold an integer value? -/
def hasIntVal (o : JObj) : Bool :=
  o.any (fun p => p.2.isInt)

/-- A Python value that is either a genuine bool or a string, as produced by
`request.args.get("do_ocr", default=False)` followed by the `== "True"`
normalization (src/api.py lines 62-64, src/server.py lines 40-42). -/
inductive PyVal where
  | pybool (b : Bool)
  | pystr (v : String)
deriving DecidableEq, Repr

/-- Python truthiness for the values `do_ocr` can hold: a bool is itself,
a string is truthy iff non-empty. -/
def truthy : PyVal → Bool
  | .pybool b => b
  | .pystr v => !v.isEmpty

/-- Embedding of `do_ocr = request.args.get("do_ocr", default=False);
if do_ocr == "True": do_ocr = True` (src/api.py lines 62-64).  `none` is an
absent query parameter. -/
def get_do_ocr (param : Option String) : PyVal :=
  match param with
  | none => .pybool false
  | some v => if v = "True" then .pybool true else .pystr v

/-- Modelled from the spec: `extract_from_pdf` lives in `doctor/tasks.py`,
which is not under `src/`; only its caller `doctor/views.py` is.  Spec §4.3
step 3: if the caller permits OCR and the primary extractor's output is empty
or whitespace-only, rasterize and re-run through the PDF-OCR extractor,
marking `extracted_by_ocr = true` only on that path; if OCR also yields empty
text, report diagnostic "unable to extract document content" with nonzero
exit code.  Spec §8: with OCR disallowed an image-only PDF yields empty
content and a nonzero exit code (diagnostic text taken from the corresponding
branch of `src/api.py`).  `primary` is the pdftotext result on the file,
`ocrRes` the PDF-OCR result on the rasterized file.  Returns the
`(content, err, returncode)` triple paired with `extracted_by_ocr`. -/
def extract_from_pdf (ocr_available : Bool) (primary ocrRes : ToolResult) :
    ToolResult × Bool :=
  if pyStrip primary.content = "" then
    if ocr_available then
      if ocrRes.content = "" then
        (⟨"", "unable to extract document content", 1⟩, true)
      else
        (ocrRes, true)
    else
      (⟨"", "No content detected", 1⟩, false)
  else
    (primary, false)

/-- Modelled from the spec: `get_page_count` lives in `doctor/tasks.py`,
which is not under `src/`.  Spec §4.4: `page_count(path, extension)` returns
the structural page count for a PDF and null (not zero) for every other
format.  `pdfPages` stands for the page count read from the PDF structure. -/
def get_page_count (pdfPages : Nat) (extension : String) : Option Nat :=
  if extension = "pdf" then some pdfPages else none

/-- JSON encoding of an optional page count (`None` serializes as null). -/
def jsonOfPageCount : Option Nat → JVal
  | some n => .i (n : Int)
  | none => .null

/-- The `(content, err, extracted_by_ocr)` triple selected by the dispatch
chain of `extract_doc_content` (doctor/views.py lines 99-115). -/
structure DocPick where
  content : String
  err : String
  byOcr : Bool
deriving DecidableEq, Repr

/-- Embedding of the dispatch chain of `extract_doc_content`
(doctor/views.py lines 99-115): `extracted_by_ocr` starts False and is only
reassigned on the pdf branch; the unknown-extension branch sets empty content
and the diagnostic and assigns no return code. -/
def docDispatch (extension : String) (ocr_available : Bool)
    (pdfPrimary pdfOcr docRes docxRes htmlRes txtRes wpdRes : ToolResult) :
    DocPick :=
  if extension = "pdf" then
    let q := extract_from_pdf ocr_available pdfPrimary pdfOcr
    ⟨q.1.content, q.1.err, q.2⟩
  else if extension = "doc" then ⟨docRes.content, docRes.err, false⟩
  else if extension = "docx" then ⟨docxRes.content, docxRes.err, false⟩
  else if extension = "html" then ⟨htmlRes.content, htmlRes.err, false⟩
  else if extension = "txt" then ⟨txtRes.content, txtRes.err, false⟩
  else if extension = "wpd" then ⟨wpdRes.content, wpdRes.err, false⟩
  else ⟨"", "Unable to extract content due to unknown extension", false⟩

/-- Embedding of the Django view `extract_doc_content`
(doctor/views.py lines 87-127): dispatch on the declared extension, then
return the JSON object `{content, err, extension, extracted_by_ocr,
page_count}`.  The response carries no exit-code field. -/
def extract_doc_content (extension : String) (ocr_available : Bool)
    (pdfPrimary pdfOcr docRes docxRes htmlRes txtRes wpdRes : ToolResult)
    (pdfPages : Nat) : JObj :=
  let pick := docDispatch extension ocr_available pdfPrimary pdfOcr docRes
    docxRes htmlRes txtRes wpdRes
  [("content", .s pick.content),
   ("err", .s pick.err),
   ("extension", .s extension),
   ("extracted_by_ocr", .b pick.byOcr),
   ("page_count", jsonOfPageCount (get_page_count pdfPages extension))]

/-- Embedding of the dispatch chain of the Flask `extract_content`
(src/api.py lines 66-97).  On the pdf branch: if `do_ocr` is truthy and the
pdftotext output strips to empty, rasterize and run `extract_from_pdf` on
the tiff; an exactly-empty OCR output becomes
("", "Unable to extract document content", 1).  Otherwise a strip-empty
output becomes ("", "No content detected", 1).  The second component counts
how many times the OCR extractor is invoked. -/
def flaskDispatch (do_ocr : PyVal) (extension : String)
    (pdfPrimary pdfOcr docRes docxRes htmlRes txtRes wpdRes : ToolResult) :
    ToolResult × Nat :=
  if extension = "pdf" then
    if truthy do_ocr ∧ pyStrip pdfPrimary.content = "" then
      if pdfOcr.content = "" then
        (⟨"", "Unable to extract document content", 1⟩, 1)
      else
        (pdfOcr, 1)
    else
      if pyStrip pdfPrimary.content = "" then
        (⟨"", "No content detected", 1⟩, 0)
      else
        (pdfPrimary, 0)
  else if extension = "doc" then (docRes, 0)
  else if extension = "docx" then (docxRes, 0)
  else if extension = "html" then (htmlRes, 0)
  else if extension = "txt" then (txtRes, 0)
  else if extension = "wpd" then (wpdRes, 0)
  else (⟨"", "Unable to extract content due to unknown extension", 1⟩, 0)

/-- Embedding of the Flask route `extract_content`
(src/api.py lines 53-104): run the dispatch, then serialize
`{content, err: str(err), error_code: str(returncode)}` — the exit code is a
string in the JSON.  Paired with the OCR-invocation count of the run. -/
def extract_content (do_ocr : PyVal) (extension : String)
    (pdfPrimary pdfOcr docRes docxRes htmlRes txtRes wpdRes : ToolResult) :
    JObj × Nat :=
  let r := flaskDispatch do_ocr extension pdfPrimary pdfOcr docRes docxRes
    htmlRes txtRes wpdRes
  ([("content", .s r.1.content),
    ("err", .s r.1.err),
    ("error_code", .s (toString r.1.returncode))], r.2)

/-- Python runtime errors the resolver can raise. -/
inductive PyError where
  | typeError
  | attributeError
deriving DecidableEq, Repr

/-- The byte values of `b"%%EOF\r"`, the argument of `content.strip(...)` in
`extract_extension` (doctor/views.py line 225).  Python `bytes.strip(arg)`
removes from both ends every byte occurring in `arg`. -/
def eofStripBytes : List Nat := [37, 69, 79, 70, 13]

/-- Embedding of Python `content.strip(b"%%EOF\r")` on a byte list. -/
def pyBytesStrip (content : List Nat) : List Nat :=
  ((content.dropWhile (fun b => eofStripBytes.contains b)).reverse.dropWhile
    (fun b => eofStripBytes.contains b)).reverse

/-- The extension fix-up table of `extract_extension`
(doctor/views.py lines 228-235). -/
def fixes : List (String × String) :=
  [(".htm", ".html"), (".xml", ".html"), (".wsdl", ".html"),
   (".ksh", ".txt"), (".asf", ".wma"), (".dot", ".doc")]

/-- Embedding of `fixes.get(extension, extension).lower()` for a non-None
extension (doctor/views.py line 236). -/
def applyFix (e : String) : String :=
  pyLower ((fixes.lookup e).getD e)

/-- Embedding of the MIME override chain of `extract_extension`
(doctor/views.py lines 196-213).  `magicLabel` stands for
`magic.from_buffer(content)`, `magicMime` for
`magic.from_buffer(·, mime=True)`, and `audioRe` for the audio regular
expression match on the label. -/
def resolveMime (magicLabel magicMime : List Nat → String)
    (audioRe : String → Bool) (content : List Nat) : String :=
  if pyStartsWith (magicLabel content) "Composite Document File V2 Document" then
    "application/msword"
  else if magicLabel content = "(Corel/WP)" then
    "application/vnd.wordperfect"
  else if magicLabel content = "C source, ASCII text" then
    "text/plain"
  else if pyStartsWith (magicLabel content) "WordPerfect document" then
    "application/vnd.wordperfect"
  else if audioRe (magicLabel content) then
    "audio/mpeg"
  else
    magicMime content

/-- Tail of `extract_extension` after the extension lookup
(doctor/views.py lines 215-236).  Two branches raise under Python 3: on the
`.obj` branch, `"PDF" in content[0:40]` tests a `str` for membership in
`bytes` and raises TypeError (the intended disambiguation to `.pdf`/`.wpd`
is never reached); and when the extension is None,
`fixes.get(extension, extension).lower()` calls `.lower()` on None and
raises AttributeError. -/
def finishExtension (magicMime : List Nat → String)
    (guessExt : String → Option String) (content : List Nat)
    (extension : Option String) : Except PyError String :=
  if extension = some ".obj" then
    .error .typeError
  else
    match (if extension = some ".bin" then
        guessExt (magicMime (pyBytesStrip content))
      else extension) with
    | none => .error .attributeError
    | some e => .ok (applyFix e)

/-- Embedding of the Django view `extract_extension`
(doctor/views.py lines 189-236): resolve the MIME with the workaround chain,
look it up in the `mimetypes` table (`guessExt`, `none` = Python `None`),
then run the `.obj`/`.bin`/fix-up tail. -/
def extract_extension (magicLabel magicMime : List Nat → String)
    (guessExt : String → Option String) (audioRe : String → Bool)
    (content : List Nat) : Except PyError String :=
  finishExtension magicMime guessExt content
    (guessExt (resolveMime magicLabel magicMime audioRe content))

/-- Embedding of the Django view `extract_mime_from_buffer`
(doctor/views.py lines 177-186): sniff the MIME, look up the extension, and
return `{mime, extension}` with a None extension serialized as null. -/
def extract_mime_from_buffer (magicMime : List Nat → String)
    (guessExt : String → Option String) (content : List Nat) : JObj :=
  let mime := magicMime content
  let extension := guessExt mime
  [("mime", .s mime),
   ("extension", match extension with
     | some e => .s e
     | none => .null)]

/-- Temp-file effect of the Django view `extract_pdf`
(doctor/views.py lines 54-68), as the list of files on disk.  Form
validation saves the upload at `fp`; on a successful extraction
`cleanup_form` removes it; if `extract_from_pdf` raises, the `except`
branch returns the error message without any cleanup. -/
def extract_pdf_cleanup (fp : String) (extractorRaises : Bool)
    (s0 : List String) : List String :=
  let s1 := fp :: s0
  if extractorRaises then s1 else s1.erase fp

/-- Temp-file effect of the Django view `extract_doc_content`
(doctor/views.py lines 93-118): the upload saved at `fp` is removed by
`os.remove` on the normal path only; an exception raised by the dispatched
extractor propagates before `os.remove` runs. -/
def extract_doc_content_cleanup (fp : String) (extractorRaises : Bool)
    (s0 : List String) : List String :=
  let s1 := fp :: s0
  if extractorRaises then s1 else s1.erase fp

/-- Where the Flask `audio_conversion` run fails, if anywhere.
`beforeWrite`: an exception before `convert_to_mp3` writes `tmp_path`
(e.g. missing upload or bad `audio_data` JSON).  `afterWrite`: an exception
in a later step, after the file exists. -/
inductive AudioFail where
  | ok
  | beforeWrite
  | afterWrite
deriving DecidableEq, Repr

/-- Temp-file effect of the Flask route `audio_conversion`
(src/api.py lines 255-282): the success path removes `tmp_path` after
encoding; the `except` branch removes it when it exists. -/
def audio_conversion_cleanup (tmp_path : String) (fail : AudioFail)
    (s0 : List String) : List String :=
  match fail with
  | .beforeWrite => if tmp_path ∈ s0 then s0.erase tmp_path else s0
  | .afterWrite =>
      let s1 := tmp_path :: s0
      if tmp_path ∈ s1 then s1.erase tmp_path else s1
  | .ok => (tmp_path :: s0).erase tmp_path

/-- A generic tool result used to fill unused extractor slots in concrete
evaluations. -/
def tr0 : ToolResult := ⟨"c", "e", 0⟩

/-- A whitespace-only primary pdftotext result. -/
def trWs : ToolResult := ⟨" \n", "pe", 0⟩

/-- An empty OCR result. -/
def trEmpty : ToolResult := ⟨"", "oe", 0⟩

/-- A non-empty OCR result. -/
def trOcr : ToolResult := ⟨"ocr text", "", 0⟩

/-- C1: when the caller permits OCR and the primary text-layer extraction is
empty or whitespace-only, the orchestrator re-runs extraction through the
PDF-OCR extractor exactly once (no further retry); `extracted_by_ocr` is true
exactly on this fallback path; and if the OCR pass also yields empty text the
result is the "unable to extract document content" diagnostic with exit code
1 (the Flask service capitalizes "Unable"). -/
theorem c1_pdf_ocr_fallback
    (do_ocr : PyVal) (primary ocrRes d1 d2 d3 d4 d5 : ToolResult)
    (hocr : truthy do_ocr = true)
    (hempty : pyStrip primary.content = "") :
    (flaskDispatch do_ocr "pdf" primary ocrRes d1 d2 d3 d4 d5).2 = 1
    ∧ (ocrRes.content = "" →
        (extract_content do_ocr "pdf" primary ocrRes d1 d2 d3 d4 d5).1 =
          [("content", JVal.s ""),
           ("err", JVal.s "Unable to extract document content"),
           ("error_code", JVal.s "1")])
    ∧ (extract_from_pdf true primary ocrRes).2 = true
    ∧ (∀ (oa : Bool) (p o : ToolResult), (extract_from_pdf oa p o).2 = true →
        oa = true ∧ pyStrip p.content = "")
    ∧ (ocrRes.content = "" →
        extract_from_pdf true primary ocrRes =
          (⟨"", "unable to extract document content", 1⟩, true)) := by
  refine ⟨?_, ?_, ?_, ?_, ?_⟩
  · rcases eq_or_ne ocrRes.content "" with h | h <;>
      simp [flaskDispatch, hocr, hempty, h]
  · intro h
    simp [extract_content, flaskDispatch, hocr, hempty, h]
    rfl
  · rcases eq_or_ne ocrRes.content "" with h | h <;>
      simp [extract_from_pdf, hempty, h]
  · intro oa p o h
    by_cases h1 : pyStrip p.content = ""
    · cases oa with
      | false => simp [extract_from_pdf, h1] at h
      | true => exact ⟨rfl, h1⟩
    · simp [extract_from_pdf, h1] at h
  · intro h
    simp [extract_from_pdf, hempty, h]

/-- Witness for C1 at a concrete whitespace-only primary result and empty
OCR result. -/
theorem c1_pdf_ocr_fallback_witness :
    truthy (PyVal.pybool true) = true
    ∧ pyStrip trWs.content = ""
    ∧ ((flaskDispatch (PyVal.pybool true) "pdf" trWs trEmpty tr0 tr0 tr0 tr0
          tr0).2 = 1
      ∧ (trEmpty.content = "" →
          (extract_content (PyVal.pybool true) "pdf" trWs trEmpty tr0 tr0 tr0
            tr0 tr0).1 =
            [("content", JVal.s ""),
             ("err", JVal.s "Unable to extract document content"),
             ("error_code", JVal.s "1")])
      ∧ (extract_from_pdf true trWs trEmpty).2 = true
      ∧ (∀ (oa : Bool) (p o : ToolResult),
          (extract_from_pdf oa p o).2 = true → oa = true ∧ pyStrip p.content = "")
      ∧ (trEmpty.content = "" →
          extract_from_pdf true trWs trEmpty =
            (⟨"", "unable to extract document content", 1⟩, true))) :=
  ⟨by decide, by decide,
    c1_pdf_ocr_fallback (PyVal.pybool true) trWs trEmpty tr0 tr0 tr0 tr0 tr0
      (by decide) (by decide)⟩

/-- C2 counterexample: at a concrete unknown-extension request, the Django
extraction result is exactly
`{content: "", err: <unknown-extension diagnostic>, extension, extracted_by_ocr:
false, page_count: null}` — no field of it is an integer, so it does not
carry a nonzero exit code as the claim states. -/
theorem c2_unknown_extension_counterexample :
    extract_doc_content "xyz" false tr0 tr0 tr0 tr0 tr0 tr0 tr0 7 =
      [("content", JVal.s ""),
       ("err", JVal.s "Unable to extract content due to unknown extension"),
       ("extension", JVal.s "xyz"),
       ("extracted_by_ocr", JVal.b false),
       ("page_count", JVal.null)]
    ∧ hasIntVal (extract_doc_content "xyz" false tr0 tr0 tr0 tr0 tr0 tr0 tr0 7)
      = false := by
  decide

/-- C2 amended: for every unregistered extension both orchestrators
short-circuit to empty content with the unknown-extension diagnostic and
never invoke OCR or raise; the Flask result carries exit code 1 (serialized
as the string field `error_code`), while the Django result carries no exit
code and a null page count. -/
theorem c2_unknown_extension_amended
    (do_ocr : PyVal) (extension : String) (oa : Bool)
    (p o r1 r2 r3 r4 r5 : ToolResult) (pages : Nat)
    (h1 : extension ≠ "pdf") (h2 : extension ≠ "doc")
    (h3 : extension ≠ "docx") (h4 : extension ≠ "html")
    (h5 : extension ≠ "txt") (h6 : extension ≠ "wpd") :
    extract_content do_ocr extension p o r1 r2 r3 r4 r5 =
      ([("content", JVal.s ""),
        ("err", JVal.s "Unable to extract content due to unknown extension"),
        ("error_code", JVal.s "1")], 0)
    ∧ extract_doc_content extension oa p o r1 r2 r3 r4 r5 pages =
      [("content", JVal.s ""),
       ("err", JVal.s "Unable to extract content due to unknown extension"),
       ("extension", JVal.s extension),
       ("extracted_by_ocr", JVal.b false),
       ("page_count", JVal.null)] := by
  constructor
  · simp [extract_content, flaskDispatch, h1, h2, h3, h4, h5, h6]
    rfl
  · simp [extract_doc_content, docDispatch, get_page_count, jsonOfPageCount,
      h1, h2, h3, h4, h5, h6]

/-- Witness for C2's amended claim at the concrete extension "xyz". -/
theorem c2_unknown_extension_amended_witness :
    ("xyz" : String) ≠ "pdf"
    ∧ (extract_content (PyVal.pybool false) "xyz" tr0 tr0 tr0 tr0 tr0 tr0 tr0 =
        ([("content", JVal.s ""),
          ("err", JVal.s "Unable to extract content due to unknown extension"),
          ("error_code", JVal.s "1")], 0)
      ∧ extract_doc_content "xyz" false tr0 tr0 tr0 tr0 tr0 tr0 tr0 9 =
        [("content", JVal.s ""),
         ("err", JVal.s "Unable to extract content due to unknown extension"),
         ("extension", JVal.s "xyz"),
         ("extracted_by_ocr", JVal.b false),
         ("page_count", JVal.null)]) :=
  ⟨by decide,
    c2_unknown_extension_amended (PyVal.pybool false) "xyz" false tr0 tr0 tr0
      tr0 tr0 tr0 tr0 9 (by decide) (by decide) (by decide) (by decide)
      (by decide) (by decide)⟩

/-- C3: for an image-only PDF (whitespace-only primary extraction) with OCR
disallowed, the extraction result has empty content, exit code 1 and
`extracted_by_ocr = false`, in both the modelled Django helper and the Flask
orchestrator (whose response serializes the exit code as "1"). -/
theorem c3_image_pdf_no_ocr
    (primary ocrRes d1 d2 d3 d4 d5 : ToolResult)
    (hempty : pyStrip primary.content = "") :
    extract_from_pdf false primary ocrRes =
      (⟨"", "No content detected", 1⟩, false)
    ∧ extract_content (PyVal.pybool false) "pdf" primary ocrRes d1 d2 d3 d4 d5 =
      ([("content", JVal.s ""),
        ("err", JVal.s "No content detected"),
        ("error_code", JVal.s "1")], 0) := by
  constructor
  · simp [extract_from_pdf, hempty]
  · simp [extract_content, flaskDispatch, truthy, hempty]
    rfl

/-- Witness for C3 at a concrete whitespace-only primary result. -/
theorem c3_image_pdf_no_ocr_witness :
    pyStrip trWs.content = ""
    ∧ (extract_from_pdf false trWs trOcr =
        (⟨"", "No content detected", 1⟩, false)
      ∧ extract_content (PyVal.pybool false) "pdf" trWs trOcr tr0 tr0 tr0 tr0
          tr0 =
        ([("content", JVal.s ""),
          ("err", JVal.s "No content detected"),
          ("error_code", JVal.s "1")], 0)) :=
  ⟨by decide,
    c3_image_pdf_no_ocr trWs trOcr tr0 tr0 tr0 tr0 tr0 (by decide)⟩

/-- C4 counterexample: at a concrete PDF request, the Flask extraction result
is exactly `{content, err, error_code}` with the exit code serialized as the
string "0" — it has no integer-valued field, no `exit_code` key, and no
`extracted_by_ocr` or `page_count` fields, so the claimed integer exit_code
field alongside those fields is absent. -/
theorem c4_exit_code_counterexample :
    (extract_content (PyVal.pybool false) "pdf" ⟨"hello", "", 0⟩ tr0 tr0 tr0
      tr0 tr0 tr0).1 =
      [("content", JVal.s "hello"),
       ("err", JVal.s ""),
       ("error_code", JVal.s "0")]
    ∧ hasIntVal (extract_content (PyVal.pybool false) "pdf" ⟨"hello", "", 0⟩
        tr0 tr0 tr0 tr0 tr0 tr0).1 = false := by
  decide

/-- C4 amended: on every path the Flask extraction result has exactly the
fields `content`, `err` and `error_code`, all string-valued (the exit code is
a string, never an integer), and the Django extraction result has exactly the
fields `content`, `err`, `extension`, `extracted_by_ocr` and `page_count` —
no exit-code field. -/
theorem c4_result_fields_amended
    (do_ocr : PyVal) (extension : String) (oa : Bool)
    (p o r1 r2 r3 r4 r5 : ToolResult) (pages : Nat) :
    ((extract_content do_ocr extension p o r1 r2 r3 r4 r5).1).map Prod.fst =
      ["content", "err", "error_code"]
    ∧ hasIntVal (extract_content do_ocr extension p o r1 r2 r3 r4 r5).1 = false
    ∧ (extract_doc_content extension oa p o r1 r2 r3 r4 r5 pages).map Prod.fst
      = ["content", "err", "extension", "extracted_by_ocr", "page_count"] := by
  refine ⟨?_, ?_, ?_⟩ <;>
    simp [extract_content, extract_doc_content, hasIntVal, JVal.isInt]

/-- A sniffer label for generic binary content, as libmagic reports it. -/
def labelData : List Nat → String := fun _ => "data"

/-- A sniffer label matching no workaround rule. -/
def labelFoo : List Nat → String := fun _ => "foo data"

/-- A MIME sniffer reporting the generic binary stream type. -/
def mimeOctet : List Nat → String := fun _ => "application/octet-stream"

/-- A MIME sniffer reporting a type absent from the `mimetypes` table. -/
def mimeFoo : List Nat → String := fun _ => "application/x-foo"

/-- A `mimetypes` table on which the generic binary stream maps to the
`.obj` placeholder (the behaviour the `.obj` workaround was written for). -/
def guessObj : String → Option String :=
  fun m => if m = "application/octet-stream" then some ".obj" else none

/-- A `mimetypes` table with no entry for any MIME. -/
def guessNone : String → Option String := fun _ => none

/-- The audio regular expression matches none of the labels used here. -/
def audioNone : String → Bool := fun _ => false

/-- The first bytes of a WordPerfect file (`\xffWPC`): no "PDF" among them. -/
def wpdBytes : List Nat := [255, 87, 80, 67]

/-- C5: on the `.obj` disambiguation branch the resolver does not complete:
`"PDF" in content[0:40]` compares a `str` against `bytes` and raises
TypeError under Python 3, for PDF and non-PDF content alike, instead of
returning `.pdf` or `.wpd`. -/
theorem c5_obj_branch_raises :
    extract_extension labelData mimeOctet guessObj audioNone wpdBytes =
      Except.error PyError.typeError
    ∧ extract_extension labelData mimeOctet guessObj audioNone
        (wpdBytes ++ [80, 68, 70]) = Except.error PyError.typeError := by
  constructor <;> rfl

/-- C6: `extract_mime_from_buffer` does return the raw MIME with a null
extension when the table has no entry, but `extract_extension` on the same
input raises AttributeError (`None.lower()`) instead of reporting an
unknown format. -/
theorem c6_unknown_mime_raises :
    extract_mime_from_buffer mimeFoo guessNone [1, 2, 3] =
      [("mime", JVal.s "application/x-foo"), ("extension", JVal.null)]
    ∧ extract_extension labelFoo mimeFoo guessNone audioNone [1, 2, 3] =
      Except.error PyError.attributeError := by
  constructor <;> rfl

/-- C7 counterexample: on the binary-placeholder branch the resolver raises
TypeError and returns no extension at all, so the fix-up table is not
applied after this resolution path, contrary to the claim. -/
theorem c7_fixup_counterexample :
    extract_extension labelData mimeOctet guessObj audioNone [1, 2, 3] =
      Except.error PyError.typeError
    ∧ (Except.error PyError.typeError : Except PyError String) ≠
      Except.ok ".pdf"
    ∧ (Except.error PyError.typeError : Except PyError String) ≠
      Except.ok ".wpd" := by
  refine ⟨rfl, by simp, by simp⟩

/-- Helper for C7: every successfully resolved extension has passed through
the fix-up table. -/
theorem finishExtension_ok_applyFix (mm : List Nat → String)
    (g : String → Option String) (c : List Nat) (ext : Option String)
    (s : String) (h : finishExtension mm g c ext = .ok s) :
    ∃ e, s = applyFix e := by
  unfold finishExtension at h
  split at h
  · exact absurd h (by simp)
  · rcases hx : (if ext = some ".bin" then g (mm (pyBytesStrip c)) else ext)
      with _ | e
    · rw [hx] at h
      simp at h
    · rw [hx] at h
      simp only [Except.ok.injEq] at h
      exact ⟨e, h.symm⟩

/-- C7 amended: the fix-up table is applied on every path on which the
resolver returns an extension (the binary-placeholder branch instead raises
before reaching it); with the table mapping application/msword to ".doc" and
application/vnd.wordperfect to ".wpd", a label starting with "Composite
Document File V2 Document" yields ".doc" and the exact label "(Corel/WP)"
yields ".wpd". -/
theorem c7_fixup_amended (magicLabel magicMime : List Nat → String)
    (guessExt : String → Option String) (audioRe : String → Bool)
    (content : List Nat)
    (hdoc : guessExt "application/msword" = some ".doc")
    (hwpd : guessExt "application/vnd.wordperfect" = some ".wpd") :
    (pyStartsWith (magicLabel content) "Composite Document File V2 Document"
        = true →
      extract_extension magicLabel magicMime guessExt audioRe content =
        .ok ".doc")
    ∧ (magicLabel content = "(Corel/WP)" →
      extract_extension magicLabel magicMime guessExt audioRe content =
        .ok ".wpd")
    ∧ (∀ s, extract_extension magicLabel magicMime guessExt audioRe content =
        .ok s → ∃ e, s = applyFix e) := by
  refine ⟨?_, ?_, ?_⟩
  · intro h
    have hm : resolveMime magicLabel magicMime audioRe content =
        "application/msword" := by
      unfold resolveMime
      rw [if_pos h]
    unfold extract_extension
    rw [hm, hdoc]
    rfl
  · intro h
    have hm : resolveMime magicLabel magicMime audioRe content =
        "application/vnd.wordperfect" := by
      unfold resolveMime
      rw [h]
      rfl
    unfold extract_extension
    rw [hm, hwpd]
    rfl
  · intro s h
    exact finishExtension_ok_applyFix _ _ _ _ _ h

/-- A `mimetypes` table holding the two standard word-processor entries. -/
def guessWordTables : String → Option String :=
  fun m =>
    if m = "application/msword" then some ".doc"
    else if m = "application/vnd.wordperfect" then some ".wpd"
    else none

/-- A sniffer label for a Corel WordPerfect signature. -/
def labelCorel : List Nat → String := fun _ => "(Corel/WP)"

/-- Witness for C7's amended claim at a concrete Corel label and word
processor table. -/
theorem c7_fixup_amended_witness :
    guessWordTables "application/msword" = some ".doc"
    ∧ guessWordTables "application/vnd.wordperfect" = some ".wpd"
    ∧ ((pyStartsWith (labelCorel [9]) "Composite Document File V2 Document"
          = true →
        extract_extension labelCorel mimeOctet guessWordTables audioNone [9] =
          .ok ".doc")
      ∧ (labelCorel [9] = "(Corel/WP)" →
        extract_extension labelCorel mimeOctet guessWordTables audioNone [9] =
          .ok ".wpd")
      ∧ (∀ s, extract_extension labelCorel mimeOctet guessWordTables audioNone
          [9] = .ok s → ∃ e, s = applyFix e)) :=
  ⟨by decide, by decide,
    c7_fixup_amended labelCorel mimeOctet guessWordTables audioNone [9]
      (by decide) (by decide)⟩

/-- C8: the page-count operation returns the structural page count for a
PDF (a non-negative integer) and null for every other extension — never
zero. -/
theorem c8_page_count (p : Nat) (ext : String) (hne : ext ≠ "pdf") :
    get_page_count p "pdf" = some p
    ∧ (∀ n, get_page_count p "pdf" = some n → 0 ≤ (n : Int))
    ∧ get_page_count p ext = none
    ∧ get_page_count p ext ≠ some 0 := by
  refine ⟨by simp [get_page_count], ?_, by simp [get_page_count, hne],
    by simp [get_page_count, hne]⟩
  intro n _
  exact Int.ofNat_nonneg n

/-- Witness for C8 at 30 pages and extension "doc". -/
theorem c8_page_count_witness :
    ("doc" : String) ≠ "pdf"
    ∧ (get_page_count 30 "pdf" = some 30
      ∧ (∀ n, get_page_count 30 "pdf" = some n → 0 ≤ (n : Int))
      ∧ get_page_count 30 "doc" = none
      ∧ get_page_count 30 "doc" ≠ some 0) :=
  ⟨by decide, c8_page_count 30 "doc" (by decide)⟩

/-- C9 counterexample: when the pdf extraction raises, the Django view
`extract_pdf` returns from its except branch with the saved upload still on
disk, so temporary artifacts are not removed on every exit path. -/
theorem c9_cleanup_counterexample :
    extract_pdf_cleanup "fp0" true [] = ["fp0"]
    ∧ "fp0" ∈ extract_pdf_cleanup "fp0" true [] := by
  decide

/-- C9 amended: the Django extraction views remove the saved upload on their
normal exit path, and the Flask audio conversion removes its temporary MP3 on
both success and error paths; but when extraction raises, the Django views'
error paths skip cleanup and the saved upload remains. -/
theorem c9_cleanup_amended (fp tmp : String) (s0 : List String)
    (fail : AudioFail) (hfresh : tmp ∉ s0) :
    extract_pdf_cleanup fp false s0 = s0
    ∧ extract_doc_content_cleanup fp false s0 = s0
    ∧ tmp ∉ audio_conversion_cleanup tmp fail s0
    ∧ extract_pdf_cleanup fp true s0 = fp :: s0
    ∧ extract_doc_content_cleanup fp true s0 = fp :: s0 := by
  refine ⟨?_, ?_, ?_, rfl, rfl⟩
  · simp [extract_pdf_cleanup]
  · simp [extract_doc_content_cleanup]
  · cases fail with
    | beforeWrite => simp [audio_conversion_cleanup, hfresh]
    | afterWrite => simp [audio_conversion_cleanup, hfresh]
    | ok => simp [audio_conversion_cleanup, hfresh]

/-- Witness for C9's amended claim at concrete paths and a failure after the
temporary MP3 was written. -/
theorem c9_cleanup_amended_witness :
    ("t" : String) ∉ ([] : List String)
    ∧ (extract_pdf_cleanup "f" false [] = []
      ∧ extract_doc_content_cleanup "f" false [] = []
      ∧ "t" ∉ audio_conversion_cleanup "t" AudioFail.afterWrite []
      ∧ extract_pdf_cleanup "f" true [] = ["f"]
      ∧ extract_doc_content_cleanup "f" true [] = ["f"]) :=
  ⟨by decide, c9_cleanup_amended "f" "t" [] AudioFail.afterWrite (by decide)⟩

/-- C10 counterexample: the query value "true" is not normalized to a
boolean, but it is truthy, so with an empty primary extraction the OCR
branch is taken — contradicting the claim that every value other than
"True" disables OCR escalation. -/
theorem c10_truthy_counterexample :
    get_do_ocr (some "true") = PyVal.pystr "true"
    ∧ truthy (get_do_ocr (some "true")) = true
    ∧ (flaskDispatch (get_do_ocr (some "true")) "pdf" trWs trOcr tr0 tr0 tr0
        tr0 tr0).2 = 1 := by
  refine ⟨rfl, rfl, ?_⟩
  rfl

/-- C10 amended: the flag is normalized to the boolean True only for the
exact string "True", but the OCR branch tests Python truthiness of the raw
value, so OCR escalation runs for every present, non-empty parameter value
(including "true", "1" and "False"); only an absent parameter or the empty
string disables it. -/
theorem c10_truthiness_amended (v : Option String)
    (primary o d1 d2 d3 d4 d5 : ToolResult)
    (hempty : pyStrip primary.content = "") :
    (get_do_ocr v = PyVal.pybool true ↔ v = some "True")
    ∧ ((flaskDispatch (get_do_ocr v) "pdf" primary o d1 d2 d3 d4 d5).2 = 1 ↔
        ∃ s, v = some s ∧ s ≠ "") := by
  have hsplit : ∀ d : PyVal,
      (flaskDispatch d "pdf" primary o d1 d2 d3 d4 d5).2 =
        if truthy d = true then 1 else 0 := by
    intro d
    by_cases hd : truthy d = true
    · rcases eq_or_ne o.content "" with h | h <;>
        simp [flaskDispatch, hd, hempty, h]
    · simp [flaskDispatch, hd, hempty]
  constructor
  · cases v with
    | none => simp [get_do_ocr]
    | some s =>
      by_cases hs : s = "True" <;> simp [get_do_ocr, hs]
  · rw [hsplit]
    cases v with
    | none => simp [get_do_ocr, truthy]
    | some s =>
      by_cases hs : s = "True"
      · subst hs
        simp [get_do_ocr, truthy]
      · by_cases he : s = "" <;>
          simp [get_do_ocr, truthy, hs, he, String.isEmpty_iff]

/-- Witness for C10's amended claim at the concrete parameter value "1". -/
theorem c10_truthiness_amended_witness :
    pyStrip trWs.content = ""
    ∧ ((get_do_ocr (some "1") = PyVal.pybool true ↔ some "1" = some "True")
      ∧ ((flaskDispatch (get_do_ocr (some "1")) "pdf" trWs trOcr tr0 tr0 tr0
          tr0 tr0).2 = 1 ↔ ∃ s, (some "1" : Option String) = some s ∧ s ≠ "")) :=
  ⟨by decide,
    c10_truthiness_amended (some "1") trWs trOcr tr0 tr0 tr0 tr0 tr0
      (by decide)⟩

end Doctor
